import Mathlib

/-!
Verification of the ADR plotting scripts
(`scratch/plot_adr_final.py` and `final1/plot_density_scenario.py`).

The scripts work on pandas DataFrames read from summary CSV files.  A
DataFrame is embedded as a `List Row`, where `Row` carries the columns the
scripts use, with numeric columns as rationals.  Boolean-mask filtering
(`df[mask]`) keeps the matching rows in order, which is `List.filter`;
`groupby(k)[m].mean()` at a key value is the sum of the metric over the
group divided by the group size.
-/

namespace AdrPlots

/-- One row of a summary CSV.  Numeric columns (`MobilitySpeed`,
`TrafficInterval`, `MaxRandomLoss`, `NumDevices`, `Sigma`, `PDR_Percent`,
`AvgEnergy_mJ`) are rationals; `alg` is the algorithm label.  `Efficiency`
is `none` for a freshly loaded row: `plot_energy_efficiency` writes it. -/
structure Row where
  MobilitySpeed : ℚ
  TrafficInterval : ℚ
  MaxRandomLoss : ℚ
  NumDevices : ℚ
  Sigma : ℚ
  alg : String
  PDR_Percent : ℚ
  AvgEnergy_mJ : ℚ
  Efficiency : Option ℚ := none
deriving DecidableEq, Repr

/-- `filter_data` of `plot_density_scenario.py` (lines 19–26): the rows of
`df` whose `MobilitySpeed`, `TrafficInterval` and `MaxRandomLoss` columns
equal the three parameters, in order. -/
def filter_data (df : List Row) (mobility_speed traffic_interval max_random_loss : ℚ) :
    List Row :=
  df.filter fun r =>
    decide (r.MobilitySpeed = mobility_speed) &&
    decide (r.TrafficInterval = traffic_interval) &&
    decide (r.MaxRandomLoss = max_random_loss)

/-- Sum of a numeric column over a list of rows (pandas `Series.sum`). -/
def colSum (metric : Row → ℚ) (rows : List Row) : ℚ := (rows.map metric).sum

/-- `groupby(param)[metric].mean()` evaluated at the group key `v`: the
group is the rows whose `param` column equals `v`, and pandas computes its
mean as sum over the group divided by the group size. -/
def groupbyMeanAt (df : List Row) (param metric : Row → ℚ) (v : ℚ) : ℚ :=
  let grp := df.filter fun r => decide (param r = v)
  colSum metric grp / (grp.length : ℚ)

/-- `df[df['alg'] == alg]`: the rows labelled with algorithm `a`. -/
def filterAlg (df : List Row) (a : String) : List Row :=
  df.filter fun r => decide (r.alg = a)

/-- `df[df['alg'] == alg].groupby(param)[metric].mean()` at key `v`, the
grouped value computed by `plot_pdr_energy_by_scenario`
(`plot_adr_final.py` lines 152–156) and the pivot tables of
`print_summary_table`. -/
def algGroupbyMeanAt (df : List Row) (a : String) (param metric : Row → ℚ) (v : ℚ) : ℚ :=
  groupbyMeanAt (filterAlg df a) param metric v

/-- C1: `filter_data` returns exactly the rows of `df` whose
`MobilitySpeed`, `TrafficInterval` and `MaxRandomLoss` columns equal the
three given values, and the returned row count equals the number of
matching rows of `df`. -/
theorem filter_data_exact_rows (df : List Row) (m t l : ℚ) :
    (∀ r : Row, r ∈ filter_data df m t l ↔
      r ∈ df ∧ r.MobilitySpeed = m ∧ r.TrafficInterval = t ∧ r.MaxRandomLoss = l) ∧
    (filter_data df m t l).length =
      df.countP fun r =>
        decide (r.MobilitySpeed = m ∧ r.TrafficInterval = t ∧ r.MaxRandomLoss = l) := by
  constructor
  · intro r
    simp [filter_data, List.mem_filter, and_assoc]
  · rw [List.countP_eq_length_filter]
    unfold filter_data
    rw [List.filter_congr]
    intro r _
    simp [Bool.and_assoc]

/-- C2: the grouped value computed by `groupby(param)[metric].mean()` on the
rows labelled `a`, at key `v`, is the arithmetic mean (sum divided by
count) of the metric over exactly the rows of `df` with `alg = a` and
`param = v`. -/
theorem algGroupbyMeanAt_eq_arith_mean (df : List Row) (a : String)
    (param metric : Row → ℚ) (v : ℚ) :
    algGroupbyMeanAt df a param metric v =
      colSum metric (df.filter fun r => decide (r.alg = a ∧ param r = v)) /
        ((df.filter fun r => decide (r.alg = a ∧ param r = v)).length : ℚ) := by
  have hf : ((filterAlg df a).filter fun r => decide (param r = v)) =
      df.filter fun r => decide (r.alg = a ∧ param r = v) := by
    unfold filterAlg
    rw [List.filter_filter]
    rw [List.filter_congr]
    intro r _
    simp [Bool.and_comm]
  unfold algGroupbyMeanAt groupbyMeanAt
  simp only [hf]

/-! ## Column-name normalization and the `alg` column of `load_data`
(`plot_adr_final.py` lines 39–90). -/

/-- Python `str.strip()` whitespace test (modelled with `Char.isWhitespace`). -/
def isPySpace (c : Char) : Bool := c.isWhitespace

/-- Python `str.strip()` on a character list: drop whitespace from the left,
then from the right. -/
def stripChars (l : List Char) : List Char :=
  (l.dropWhile isPySpace).rdropWhile isPySpace

/-- Python `c.strip()`. -/
def pyStrip (s : String) : String := String.mk (stripChars s.data)

/-- Pointwise action of Python `c.replace(' ', '_')`. -/
def replSpace (c : Char) : Char := if c = ' ' then '_' else c

/-- Python `c.replace(' ', '_')`. -/
def pyReplaceSpaces (s : String) : String := String.mk (s.data.map replSpace)

/-- A pandas column name: a Python string, or a non-string label (the code
tests `isinstance(c, str)`). -/
inductive ColName where
  | str (s : String)
  | nonstr (tag : ℕ)
deriving DecidableEq, Repr

/-- The column-name normalization of `load_data` (`plot_adr_final.py`
lines 50–56): a string column name is stripped and its spaces replaced by
underscores; a non-string is unchanged. -/
def normalizeCol : ColName → ColName
  | .str s => .str (pyReplaceSpaces (pyStrip s))
  | .nonstr t => .nonstr t

theorem dropWhile_rdropWhile_of_eq (p : Char → Bool) (u : List Char)
    (h : u.dropWhile p = u) : (u.rdropWhile p).dropWhile p = u.rdropWhile p := by
  rw [List.dropWhile_eq_self_iff]
  intro hl
  have hpre : u.rdropWhile p <+: u := List.rdropWhile_prefix p u
  have hlen : 0 < u.length := lt_of_lt_of_le hl hpre.length_le
  have h0 : (u.rdropWhile p).get ⟨0, hl⟩ = u.get ⟨0, hlen⟩ := by
    simpa using hpre.getElem hl
  rw [h0]
  exact List.dropWhile_eq_self_iff.mp h hlen

/-- A list that is already left- and right-stripped is fixed by `stripChars`. -/
theorem stripChars_eq_self (x : List Char) (hd : x.dropWhile isPySpace = x)
    (hr : x.rdropWhile isPySpace = x) : stripChars x = x := by
  unfold stripChars
  rw [hd, hr]

theorem stripChars_dropWhile (l : List Char) :
    (stripChars l).dropWhile isPySpace = stripChars l :=
  dropWhile_rdropWhile_of_eq isPySpace (l.dropWhile isPySpace)
    (List.dropWhile_idempotent isPySpace l)

theorem stripChars_rdropWhile (l : List Char) :
    (stripChars l).rdropWhile isPySpace = stripChars l := by
  unfold stripChars
  exact List.rdropWhile_idempotent isPySpace (l.dropWhile isPySpace)

theorem dropWhile_map_replSpace (y : List Char) (h : y.dropWhile isPySpace = y) :
    (y.map replSpace).dropWhile isPySpace = y.map replSpace := by
  rw [List.dropWhile_eq_self_iff] at h ⊢
  intro hl
  have hl' : 0 < y.length := by simpa using hl
  have hy := h hl'
  have hg : (y.map replSpace).get ⟨0, hl⟩ = replSpace (y.get ⟨0, hl'⟩) := by
    simp
  rw [hg]
  unfold replSpace
  by_cases hsp : y.get ⟨0, hl'⟩ = ' '
  · rw [hsp] at hy
    exact absurd (by decide : isPySpace ' ' = true) hy
  · rw [if_neg hsp]
    exact hy

theorem rdropWhile_map_replSpace (y : List Char) (h : y.rdropWhile isPySpace = y) :
    (y.map replSpace).rdropWhile isPySpace = y.map replSpace := by
  rw [List.rdropWhile_eq_self_iff] at h ⊢
  intro hl
  have hl' : y ≠ [] := by simpa using hl
  have hy := h hl'
  have hg : (y.map replSpace).getLast hl = replSpace (y.getLast hl') := by
    rw [List.getLast_eq_getElem, List.getLast_eq_getElem, List.getElem_map]
    congr 1
    simp
  rw [hg]
  unfold replSpace
  by_cases hsp : y.getLast hl' = ' '
  · rw [hsp] at hy
    exact absurd (by decide : isPySpace ' ' = true) hy
  · rw [if_neg hsp]
    exact hy

theorem map_replSpace_idem (x : List Char) :
    (x.map replSpace).map replSpace = x.map replSpace := by
  rw [List.map_map]
  apply List.map_congr_left
  intro c _
  show replSpace (replSpace c) = replSpace c
  unfold replSpace
  by_cases hc : c = ' '
  · simp [hc]
  · simp [hc]

/-- C4: the column-name normalization applied by `load_data` is idempotent:
normalizing a normalized column name changes nothing. -/
theorem normalizeCol_idempotent (c : ColName) :
    normalizeCol (normalizeCol c) = normalizeCol c := by
  cases c with
  | nonstr t => rfl
  | str s =>
    show ColName.str (pyReplaceSpaces (pyStrip (pyReplaceSpaces (pyStrip s)))) =
      ColName.str (pyReplaceSpaces (pyStrip s))
    have hbase : pyStrip (pyReplaceSpaces (pyStrip s)) = pyReplaceSpaces (pyStrip s) := by
      show String.mk (stripChars ((stripChars s.data).map replSpace)) =
        String.mk ((stripChars s.data).map replSpace)
      congr 1
      exact stripChars_eq_self _
        (dropWhile_map_replSpace _ (stripChars_dropWhile s.data))
        (rdropWhile_map_replSpace _ (stripChars_rdropWhile s.data))
    rw [hbase]
    show ColName.str (String.mk (((stripChars s.data).map replSpace).map replSpace)) =
      ColName.str (String.mk ((stripChars s.data).map replSpace))
    rw [map_replSpace_idem]

/-- `prefB t s`: `t` is an initial segment of `s` (on character lists). -/
def prefB : List Char → List Char → Bool
  | [], _ => true
  | _ :: _, [] => false
  | a :: as, b :: bs => decide (a = b) && prefB as bs

/-- Python `t in s` on character lists: `t` occurs contiguously in `s`. -/
def subB (t : List Char) : List Char → Bool
  | [] => t.isEmpty
  | c :: cs => prefB t (c :: cs) || subB t cs

/-- Python `t in s` for strings. -/
def strContains (s t : String) : Bool := subB t.data s.data

/-- Python `s.lower()` (ASCII, via `Char.toLower`). -/
def strLower (s : String) : String := String.mk (s.data.map Char.toLower)

/-- The algorithm-label candidate columns checked by `load_data`. -/
def candidate_cols : List String := ["Algorithm", "algorithm", "Algorithme", "algorithme"]

/-- The algorithm tokens recognized in a file name by `load_data`. -/
def known_algs : List String :=
  ["ADR-AVG", "ADR-Lite", "ADR-MAX", "No-ADR", "ADR_AVG", "ADR_MAX", "No_ADR"]

/-- The filename fallback of `load_data` (`plot_adr_final.py` lines 67–88):
the first token of `known_algs` contained in the file name, else the
permissive lower-case checks; `none` when nothing matches. -/
def algFromFilename (fname : String) : Option String :=
  match known_algs.find? (fun ka => strContains fname ka) with
  | some ka => some ka
  | none =>
    let lower := strLower fname
    if strContains lower "adr-lite" then some "ADR-Lite"
    else if strContains lower "adr-avg" || strContains lower "adr_avg" then some "ADR-AVG"
    else if strContains lower "adr-max" || strContains lower "adr_max" then some "ADR-MAX"
    else if strContains lower "no-adr" || strContains lower "no_adr" then some "No-ADR"
    else none

/-- The `alg` column produced by `load_data` (`plot_adr_final.py`
lines 59–88) on a frame whose normalized column names are `cols`, whose
column contents are `getCol`, with `nrows` rows, loaded from file `fname`:
keep an existing `alg` column, else copy the first candidate column
present, else fill the column with the constant extracted from the file
name (`"Unknown"` when nothing is recognized). -/
def mkAlgColumn (cols : List String) (getCol : String → List String)
    (fname : String) (nrows : ℕ) : List String :=
  if "alg" ∈ cols then getCol "alg"
  else
    match candidate_cols.find? (fun c => decide (c ∈ cols)) with
    | some c => getCol c
    | none => List.replicate nrows ((algFromFilename fname).getD "Unknown")

/-- C3: when the normalized columns contain no `alg` column and no candidate
column, and the file name contains none of the recognized algorithm tokens
(nor their underscore/lower-case variants), `load_data` fills the `alg`
column with the string `"Unknown"` on every row. -/
theorem mkAlgColumn_unknown (cols : List String) (getCol : String → List String)
    (fname : String) (nrows : ℕ)
    (halg : "alg" ∉ cols)
    (hcand : ∀ c ∈ candidate_cols, c ∉ cols)
    (hka : ∀ ka ∈ known_algs, strContains fname ka = false)
    (hlow : ∀ tok ∈ ["adr-lite", "adr-avg", "adr_avg", "adr-max", "adr_max", "no-adr", "no_adr"],
      strContains (strLower fname) tok = false) :
    mkAlgColumn cols getCol fname nrows = List.replicate nrows "Unknown" := by
  have hfind : candidate_cols.find? (fun c => decide (c ∈ cols)) = none := by
    rw [List.find?_eq_none]
    intro c hc
    simpa using hcand c hc
  have hkafind : known_algs.find? (fun ka => strContains fname ka) = none := by
    rw [List.find?_eq_none]
    intro ka hmem
    simpa using hka ka hmem
  have h1 := hlow "adr-lite" (by simp)
  have h2 := hlow "adr-avg" (by simp)
  have h3 := hlow "adr_avg" (by simp)
  have h4 := hlow "adr-max" (by simp)
  have h5 := hlow "adr_max" (by simp)
  have h6 := hlow "no-adr" (by simp)
  have h7 := hlow "no_adr" (by simp)
  have hnone : algFromFilename fname = none := by
    unfold algFromFilename
    rw [hkafind]
    simp [h1, h2, h3, h4, h5, h6, h7]
  unfold mkAlgColumn
  rw [if_neg halg, hfind, hnone]
  rfl

/-- C3 witness: a frame with columns `NumDevices`, `PDR_Percent` loaded from
`summary_density_run1.csv` gets the constant `alg` column `"Unknown"`. -/
theorem mkAlgColumn_unknown_witness :
    mkAlgColumn ["NumDevices", "PDR_Percent"] (fun _ => [])
      "summary_density_run1.csv" 2 = List.replicate 2 "Unknown" :=
  mkAlgColumn_unknown ["NumDevices", "PDR_Percent"] (fun _ => [])
    "summary_density_run1.csv" 2 (by decide) (by decide) (by decide) (by decide)

/-! ## File discovery (`find_summary_path`, `find_all_summary_paths`).

The directory tree is modelled by the list of existing regular files, in
the order the operating system yields them to `glob`, together with the
list of existing directories. -/

/-- Model of the directory tree the scripts probe. -/
structure FS where
  files : List String
  dirs : List String
deriving Repr

/-- `Path(a) / b`. -/
def pjoin (a b : String) : String := a ++ "/" ++ b

/-- Glob-pattern match over `*` wildcards, the only wildcard the scripts
use. -/
def globMatch : List Char → List Char → Bool
  | [], s => s.isEmpty
  | p :: ps, [] => decide (p = '*') && globMatch ps []
  | p :: ps, d :: ds =>
    if p = '*' then globMatch ps (d :: ds) || globMatch (p :: ps) ds
    else decide (p = d) && globMatch ps ds
termination_by pat s => (pat.length, s.length)

/-- The final path component. -/
def baseName (p : String) : String := (p.splitOn "/").getLastD ""

/-- The path without its final component (`""` for a bare name). -/
def dirName (p : String) : String := String.intercalate "/" ((p.splitOn "/").dropLast)

/-- `d.glob(pat)`: the files directly inside directory `d` whose name
matches `pat`, in filesystem order. -/
def dirGlob (fs : FS) (d : String) (pat : String) : List String :=
  fs.files.filter fun f => decide (dirName f = d) && globMatch pat.data (baseName f).data

/-- `Path('.').glob(pat)`: the files of the current directory whose name
matches `pat`. -/
def cwdGlob (fs : FS) (pat : String) : List String :=
  fs.files.filter fun f => decide (dirName f = "") && globMatch pat.data (baseName f).data

/-- `base.rglob(pat)` for a name-only pattern: the files anywhere under
directory `base` whose final name matches `pat`, in filesystem order. -/
def rglobList (fs : FS) (base : String) (pat : String) : List String :=
  fs.files.filter fun f =>
    (base ++ "/").isPrefixOf f && globMatch pat.data (baseName f).data

/-- One base iteration of `find_summary_path` (`plot_adr_final.py`
lines 104–121): the exact name under `<base_name>/summaries/<scenario>/`,
then the first match of the two glob patterns there, then the first match
of a recursive search under `<base_name>/summaries`. -/
def findInBase (fs : FS) (scenario filename base_name : String) : Option String :=
  let base := pjoin base_name "summaries"
  let alt := pjoin (pjoin base scenario) filename
  if alt ∈ fs.files then some alt
  else
    let scen_dir := pjoin base scenario
    (if scen_dir ∈ fs.dirs then
        (dirGlob fs scen_dir ("summary*" ++ scenario ++ "*run*.csv") ++
          dirGlob fs scen_dir "summary_*_run*.csv").head?
      else none).or
      (if base ∈ fs.dirs then (rglobList fs base ("*" ++ scenario ++ "*.csv")).head?
        else none)

/-- `find_summary_path` (`plot_adr_final.py` lines 93–123): the file name
itself when it exists, else the first hit of the two bases in order. -/
def find_summary_path (fs : FS) (scenario filename : String) : Option String :=
  if filename ∈ fs.files then some filename
  else
    (findInBase fs scenario filename "resultsfinal").or
      (findInBase fs scenario filename "resultsfinal2")

/-- The candidates of one base, in the search order C9 describes: exact
name, then glob matches in the scenario folder, then recursive matches
under the base. -/
def baseCandidates (fs : FS) (scenario filename base_name : String) : List String :=
  let base := pjoin base_name "summaries"
  let scen_dir := pjoin base scenario
  (if pjoin scen_dir filename ∈ fs.files then [pjoin scen_dir filename] else []) ++
    (if scen_dir ∈ fs.dirs then
        dirGlob fs scen_dir ("summary*" ++ scenario ++ "*run*.csv") ++
          dirGlob fs scen_dir "summary_*_run*.csv"
      else []) ++
    (if base ∈ fs.dirs then rglobList fs base ("*" ++ scenario ++ "*.csv") else [])

/-- All candidate paths in the search order C9 describes: the file name
itself when that path exists, then the `resultsfinal` base, then the
`resultsfinal2` base. -/
def claimCandidates (fs : FS) (scenario filename : String) : List String :=
  (if filename ∈ fs.files then [filename] else []) ++
    baseCandidates fs scenario filename "resultsfinal" ++
    baseCandidates fs scenario filename "resultsfinal2"

theorem findInBase_eq_head (fs : FS) (scenario filename base_name : String) :
    findInBase fs scenario filename base_name =
      (baseCandidates fs scenario filename base_name).head? := by
  unfold findInBase baseCandidates
  by_cases h1 : pjoin (pjoin (pjoin base_name "summaries") scenario) filename ∈ fs.files
  · simp [h1]
  · by_cases h2 : pjoin (pjoin base_name "summaries") scenario ∈ fs.dirs <;>
      by_cases h3 : pjoin base_name "summaries" ∈ fs.dirs <;>
      simp [h1, h2, h3, List.head?_append, Option.or_assoc]

/-- C9: `find_summary_path` returns the first candidate of the search
order the claim describes — the file name itself when that path exists,
then for `resultsfinal` and then `resultsfinal2` the exact name in
`summaries/<scenario>/`, the glob matches there and the recursive matches
under the base — and in particular returns `none` exactly when no
candidate exists in any of these locations. -/
theorem find_summary_path_spec (fs : FS) (scenario filename : String) :
    find_summary_path fs scenario filename =
      (claimCandidates fs scenario filename).head? ∧
    (find_summary_path fs scenario filename = none ↔
      claimCandidates fs scenario filename = []) := by
  have hmain : find_summary_path fs scenario filename =
      (claimCandidates fs scenario filename).head? := by
    unfold find_summary_path claimCandidates
    by_cases h0 : filename ∈ fs.files
    · simp [h0]
    · simp [h0, List.head?_append, findInBase_eq_head, Option.or_assoc]
  refine ⟨hmain, ?_⟩
  rw [hmain]
  exact List.head?_eq_none_iff

/-- The candidate paths collected by `find_all_summary_paths`
(`plot_adr_final.py` lines 364–384) before deduplication: the
current-directory glob, then for each result base (`resultsfinal`, then
`resultsfinal2`): the `*.csv` glob in `<base>/summaries/<scenario>/` for
the cwd-relative and then the repo-root-relative base, then the recursive
search under both. -/
def collectAllSummaryPaths (fs : FS) (repoRoot : String) (scenario : String) : List String :=
  cwdGlob fs ("*" ++ scenario ++ "*.csv") ++
    (["resultsfinal", "resultsfinal2"].flatMap fun base_name =>
      let candidates_bases :=
        [pjoin base_name "summaries", pjoin (pjoin repoRoot base_name) "summaries"]
      (candidates_bases.flatMap fun base =>
        let alt := pjoin base scenario
        if alt ∈ fs.dirs then dirGlob fs alt "*.csv" else []) ++
      (candidates_bases.flatMap fun base =>
        if base ∈ fs.dirs then rglobList fs base ("*" ++ scenario ++ "*.csv") else []))

/-- The `seen`-set loop of `find_all_summary_paths` (lines 386–392): keep
each path at its first occurrence only. -/
def dedupFirst : List String → List String → List String
  | _, [] => []
  | seen, p :: rest =>
    if p ∈ seen then dedupFirst seen rest else p :: dedupFirst (p :: seen) rest

/-- `find_all_summary_paths` (`plot_adr_final.py` lines 359–393); the
repository root `Path(__file__).resolve().parent.parent` is the parameter
`repoRoot`. -/
def find_all_summary_paths (fs : FS) (repoRoot : String) (scenario : String) : List String :=
  dedupFirst [] (collectAllSummaryPaths fs repoRoot scenario)

theorem dedupFirst_mem (l : List String) :
    ∀ seen x, x ∈ dedupFirst seen l ↔ x ∈ l ∧ x ∉ seen := by
  induction l with
  | nil => intro seen x; simp [dedupFirst]
  | cons p rest ih =>
    intro seen x
    unfold dedupFirst
    by_cases hp : p ∈ seen
    · rw [if_pos hp, ih]
      constructor
      · rintro ⟨hx, hs⟩
        exact ⟨List.mem_cons_of_mem p hx, hs⟩
      · rintro ⟨hx, hs⟩
        rcases List.mem_cons.mp hx with rfl | hx
        · exact absurd hp hs
        · exact ⟨hx, hs⟩
    · rw [if_neg hp]
      constructor
      · intro hx
        rcases List.mem_cons.mp hx with rfl | hx
        · exact ⟨List.mem_cons_self x rest, hp⟩
        · rcases (ih (p :: seen) x).mp hx with ⟨h1, h2⟩
          refine ⟨List.mem_cons_of_mem p h1, fun hs => h2 (List.mem_cons_of_mem p hs)⟩
      · rintro ⟨hx, hs⟩
        rcases List.mem_cons.mp hx with rfl | hx
        · exact List.mem_cons_self x _
        · by_cases hxp : x = p
          · subst hxp; exact List.mem_cons_self x _
          · exact List.mem_cons_of_mem p
              ((ih (p :: seen) x).mpr ⟨hx, by simp [hxp, hs]⟩)

theorem dedupFirst_pairwise (l : List String) :
    ∀ seen, List.Pairwise (fun a b => l.indexOf a < l.indexOf b) (dedupFirst seen l) := by
  induction l with
  | nil => intro seen; simp [dedupFirst]
  | cons p rest ih =>
    intro seen
    unfold dedupFirst
    by_cases hp : p ∈ seen
    · rw [if_pos hp]
      refine (ih seen).imp_of_mem ?_
      intro a b ha hb hab
      have hane : a ≠ p := fun h =>
        ((dedupFirst_mem rest seen a).mp ha).2 (h ▸ hp)
      have hbne : b ≠ p := fun h =>
        ((dedupFirst_mem rest seen b).mp hb).2 (h ▸ hp)
      rw [List.indexOf_cons_ne rest hane.symm, List.indexOf_cons_ne rest hbne.symm]
      exact Nat.succ_lt_succ hab
    · rw [if_neg hp]
      constructor
      · intro b hb
        have hbne : b ≠ p := fun h =>
          ((dedupFirst_mem rest (p :: seen) b).mp hb).2 (h ▸ List.mem_cons_self p seen)
        rw [List.indexOf_cons_self, List.indexOf_cons_ne rest hbne.symm]
        exact Nat.succ_pos _
      · refine (ih (p :: seen)).imp_of_mem ?_
        intro a b ha hb hab
        have hane : a ≠ p := fun h =>
          ((dedupFirst_mem rest (p :: seen) a).mp ha).2 (h ▸ List.mem_cons_self p seen)
        have hbne : b ≠ p := fun h =>
          ((dedupFirst_mem rest (p :: seen) b).mp hb).2 (h ▸ List.mem_cons_self p seen)
        rw [List.indexOf_cons_ne rest hane.symm, List.indexOf_cons_ne rest hbne.symm]
        exact Nat.succ_lt_succ hab

/-- C10: `find_all_summary_paths` contains no duplicate path, holds exactly
the collected candidate paths (current directory first, then the
`resultsfinal`/`resultsfinal2` bases), and lists them with strictly
increasing positions of first occurrence in the collected candidate
list. -/
theorem find_all_summary_paths_spec (fs : FS) (repoRoot scenario : String) :
    (find_all_summary_paths fs repoRoot scenario).Nodup ∧
    (∀ x, x ∈ find_all_summary_paths fs repoRoot scenario ↔
      x ∈ collectAllSummaryPaths fs repoRoot scenario) ∧
    List.Pairwise
      (fun a b => (collectAllSummaryPaths fs repoRoot scenario).indexOf a <
        (collectAllSummaryPaths fs repoRoot scenario).indexOf b)
      (find_all_summary_paths fs repoRoot scenario) := by
  have hpw := dedupFirst_pairwise (collectAllSummaryPaths fs repoRoot scenario) []
  refine ⟨?_, ?_, hpw⟩
  · exact hpw.imp fun {a b} h => fun hab => absurd h (by simp [hab])
  · intro x
    unfold find_all_summary_paths
    rw [dedupFirst_mem]
    simp

/-! ## Control flow: loading, skip-and-warn, and frame effects.

A routine's observable behaviour is the warnings/errors it prints and the
plot files it saves (informational prints are not tracked).  A raised
Python exception is an `Except.error`; a normal return is `Except.ok`. -/

/-- What a run of a routine is observed to do. -/
structure Effects where
  msgs : List String
  plots : List String
deriving DecidableEq, Repr

/-- The CSV files readable from disk: path and parsed rows. -/
structure CsvFS where
  tables : List (String × List Row)
deriving Repr

/-- `pd.read_csv(path)`: the parsed rows when the file exists, else a
raised `FileNotFoundError`. -/
def read_csv (fs : CsvFS) (path : String) : Except String (List Row) :=
  match fs.tables.find? (fun tb => decide (tb.1 = path)) with
  | some tb => .ok tb.2
  | none => .error ("FileNotFoundError: " ++ path)

/-- `load_data` of `plot_density_scenario.py` (lines 14–17): a bare
`pd.read_csv` with no handling around it. -/
def load_data_density (fs : CsvFS) (path : String) : Except String (List Row) :=
  read_csv fs path

/-- `plot_density_impact_mobility0` (`plot_adr_final.py` lines 490–578):
works on a copy filtered to `MobilitySpeed == 0`; when that filter is
empty it prints a warning and returns before saving anything, else it
saves the two density images. -/
def plot_density_impact_mobility0 (df_density : List Row) : Effects :=
  let dff := df_density.filter fun r => decide (r.MobilitySpeed = 0)
  if dff.isEmpty then
    { msgs := ["warn: no data with MobilitySpeed == 0 for density impact"], plots := [] }
  else
    { msgs := ["saved: output/pdr_density_mob0.png", "saved: output/energy_density_mob0.png"],
      plots := ["output/pdr_density_mob0.png", "output/energy_density_mob0.png"] }

/-- `main` of `plot_density_scenario.py` (lines 236–286) in the default
mode (no `--list`, no `--all`): load (a missing file propagates the raised
error), filter, and on an empty filter print the two error lines and
return before the summary table and the plots; the plotting continuation
`rest` runs only on a nonempty filter. -/
def main_density (fs : CsvFS) (csv : String) (mobility interval loss : ℚ)
    (rest : List Row → Effects) : Except String Effects :=
  match load_data_density fs csv with
  | .error e => .error e
  | .ok df =>
    let filtered := filter_data df mobility interval loss
    if filtered.isEmpty then
      .ok { msgs := ["ERREUR: no data found for this parameter combination",
                     "use --list to see available values"], plots := [] }
    else .ok (rest filtered)

/-- The body of the per-file loop of `plot_adr_final.py`'s `main`
(lines 1841–1848): `try` appends the loaded frame and the path, `except`
records the path and the message under `failed_paths`. -/
def perFileStep (loader : String → Except String (List Row))
    (acc : List (List Row) × List String × List (String × String)) (path : String) :
    List (List Row) × List String × List (String × String) :=
  match loader path with
  | .ok d => (acc.1 ++ [d], acc.2.1 ++ [path], acc.2.2)
  | .error e => (acc.1, acc.2.1, acc.2.2 ++ [(path, e)])

/-- The per-file loop over the discovered paths:
`(df_list, loaded_paths, failed_paths)`. -/
def perFileLoad (loader : String → Except String (List Row)) (paths : List String) :
    List (List Row) × List String × List (String × String) :=
  paths.foldl (perFileStep loader) ([], [], [])

/-- `pd.concat(df_list, ignore_index=True)`: the rows of the frames in
order. -/
def dfConcat (l : List (List Row)) : List Row := l.flatten

theorem perFileLoad_go (loader : String → Except String (List Row))
    (paths : List String) : ∀ acc,
    paths.foldl (perFileStep loader) acc =
      (acc.1 ++ paths.filterMap (fun p => (loader p).toOption),
       acc.2.1 ++ paths.filter (fun p => (loader p).toOption.isSome),
       acc.2.2 ++ paths.filterMap (fun p =>
         match loader p with | .error e => some (p, e) | .ok _ => none)) := by
  induction paths with
  | nil => intro acc; simp
  | cons p rest ih =>
    intro acc
    rw [List.foldl_cons, ih]
    cases hl : loader p with
    | ok d =>
      simp [perFileStep, hl, Except.toOption, List.filterMap_cons, List.filter_cons]
    | error e =>
      simp [perFileStep, hl, Except.toOption, List.filterMap_cons, List.filter_cons]

/-- C7: in the main loading loop, a failing load is caught per file and
recorded in `failed_paths` with its message, the loads that succeed are
kept in order, and the scenario's frame is the concatenation of exactly
the successfully loaded frames. -/
theorem perFileLoad_spec (loader : String → Except String (List Row))
    (paths : List String) :
    (perFileLoad loader paths).1 = paths.filterMap (fun p => (loader p).toOption) ∧
    (perFileLoad loader paths).2.1 =
      paths.filter (fun p => (loader p).toOption.isSome) ∧
    (perFileLoad loader paths).2.2 = paths.filterMap (fun p =>
      match loader p with | .error e => some (p, e) | .ok _ => none) ∧
    dfConcat (perFileLoad loader paths).1 =
      (paths.filterMap (fun p => (loader p).toOption)).flatten := by
  have h := perFileLoad_go loader paths ([], [], [])
  unfold perFileLoad
  rw [h]
  simp [dfConcat]

/-- The scenario names of `plot_adr_final.py`'s `main` (lines 1819–1824). -/
def scenario_names : List String := ["mobilite", "density", "intervalle_d_envoie", "sigma"]

/-- The loading loop of `plot_adr_final.py`'s `main` (lines 1829–1857):
for each scenario, discover the CSVs, load each behind the per-file guard,
and keep the concatenated frame when at least one file loaded. -/
def mainLoadScenarios (fs : FS) (repoRoot : String)
    (loader : String → Except String (List Row)) : List (String × List Row) :=
  scenario_names.foldl
    (fun dfs scenario =>
      let found := find_all_summary_paths fs repoRoot scenario
      if found.isEmpty then dfs
      else
        let loaded := (perFileLoad loader found).1
        if loaded.isEmpty then dfs else dfs ++ [(scenario, dfConcat loaded)])
    []

/-- `main` of `plot_adr_final.py` from the load loop on (lines 1828–1861):
when no scenario loaded any data it prints the final error and returns;
the whole plotting pipeline `rest` runs only otherwise. -/
def main_adr (fs : FS) (repoRoot : String)
    (loader : String → Except String (List Row))
    (rest : List (String × List Row) → Effects) : Effects :=
  let dfs := mainLoadScenarios fs repoRoot loader
  if dfs.isEmpty then { msgs := ["ERROR: no data file found"], plots := [] }
  else rest dfs

/-- The caller's DataFrame after `plot_energy_efficiency`
(`plot_adr_final.py` line 403): `df['Efficiency'] = df['PDR_Percent'] /
df['AvgEnergy_mJ']` writes an `Efficiency` column into the frame the
caller passed. -/
def plot_energy_efficiency_frame (df : List Row) : List Row :=
  df.map fun r => { r with Efficiency := some (r.PDR_Percent / r.AvgEnergy_mJ) }

/-- The caller's DataFrame after `plot_density_impact_mobility0`: the
function filters and coerces a copy (`df_density.copy()`, line 500), so
the caller's frame is unchanged. -/
def plot_density_impact_mobility0_frame (df_density : List Row) : List Row :=
  df_density

/-- A typical loaded row; `Efficiency` is absent (`none`) as after
`load_data`. -/
def sampleRow : Row :=
  { MobilitySpeed := 0, TrafficInterval := 3600, MaxRandomLoss := 0,
    NumDevices := 100, Sigma := 0, alg := "ADR-AVG",
    PDR_Percent := 90, AvgEnergy_mJ := 45 }

/-- C5 counterexample: with no file on disk, `load_data` of
`plot_density_scenario.py` propagates the raised `FileNotFoundError` of
`pd.read_csv` instead of printing a warning and returning early. -/
theorem load_data_density_raises_on_missing_file :
    load_data_density ⟨[]⟩ "summaries/summary_scenario1.csv" =
      Except.error ("FileNotFoundError: " ++ "summaries/summary_scenario1.csv") := rfl

/-- C5 (amended): the empty-filter checks warn and return early with no
plots — `plot_density_impact_mobility0` on a frame with no
`MobilitySpeed == 0` rows, and `plot_density_scenario.py`'s `main` on an
empty filter result — while a missing input file makes `load_data` of
`plot_density_scenario.py` raise rather than warn. -/
theorem skip_and_warn_behaviour (df : List Row) (fs : CsvFS) (csv : String)
    (rows : List Row) (m t l : ℚ) (rest : List Row → Effects)
    (fs2 : CsvFS) (missing : String)
    (h1 : (df.filter fun r => decide (r.MobilitySpeed = 0)).isEmpty = true)
    (h2 : read_csv fs csv = .ok rows)
    (h3 : (filter_data rows m t l).isEmpty = true)
    (h4 : ∀ tb ∈ fs2.tables, tb.1 ≠ missing) :
    plot_density_impact_mobility0 df =
      { msgs := ["warn: no data with MobilitySpeed == 0 for density impact"],
        plots := [] } ∧
    main_density fs csv m t l rest =
      .ok { msgs := ["ERREUR: no data found for this parameter combination",
                     "use --list to see available values"], plots := [] } ∧
    load_data_density fs2 missing = .error ("FileNotFoundError: " ++ missing) := by
  refine ⟨?_, ?_, ?_⟩
  · unfold plot_density_impact_mobility0
    simp [h1]
  · unfold main_density load_data_density
    rw [h2]
    simp [h3]
  · unfold load_data_density read_csv
    rw [List.find?_eq_none.mpr ?_]
    intro tb htb
    simpa using h4 tb htb

/-- C5 witness: the three behaviours at concrete inputs. -/
theorem skip_and_warn_behaviour_witness :
    plot_density_impact_mobility0 [] =
      { msgs := ["warn: no data with MobilitySpeed == 0 for density impact"],
        plots := [] } ∧
    main_density ⟨[("data.csv", [])]⟩ "data.csv" 0 3600 0 (fun _ => ⟨[], []⟩) =
      .ok { msgs := ["ERREUR: no data found for this parameter combination",
                     "use --list to see available values"], plots := [] } ∧
    load_data_density ⟨[]⟩ "missing.csv" =
      .error ("FileNotFoundError: " ++ "missing.csv") :=
  skip_and_warn_behaviour [] ⟨[("data.csv", [])]⟩ "data.csv" [] 0 3600 0
    (fun _ => ⟨[], []⟩) ⟨[]⟩ "missing.csv" rfl rfl rfl (by simp)

/-- C8: when no scenario frame loads in `plot_adr_final.py`'s `main`, it
prints the final error and returns with no plots, whatever the rest of
the pipeline would have produced; and an empty filter result in
`plot_density_scenario.py`'s `main` prints the error lines and returns
with no plots, without raising. -/
theorem no_data_stops (fs : FS) (repoRoot : String)
    (loader : String → Except String (List Row))
    (restA : List (String × List Row) → Effects)
    (fsd : CsvFS) (csv : String) (rows : List Row) (m t l : ℚ)
    (restD : List Row → Effects)
    (hA : mainLoadScenarios fs repoRoot loader = [])
    (h2 : read_csv fsd csv = .ok rows)
    (h3 : (filter_data rows m t l).isEmpty = true) :
    main_adr fs repoRoot loader restA =
      { msgs := ["ERROR: no data file found"], plots := [] } ∧
    main_density fsd csv m t l restD =
      .ok { msgs := ["ERREUR: no data found for this parameter combination",
                     "use --list to see available values"], plots := [] } := by
  constructor
  · unfold main_adr
    rw [hA]
    rfl
  · unfold main_density load_data_density
    rw [h2]
    simp [h3]

/-- C8 witness: an empty directory tree loads nothing and a frame with no
matching row filters to empty. -/
theorem no_data_stops_witness :
    main_adr ⟨[], []⟩ "root" (fun _ => .error "boom") (fun _ => ⟨[], []⟩) =
      { msgs := ["ERROR: no data file found"], plots := [] } ∧
    main_density ⟨[("data.csv", [])]⟩ "data.csv" 0 72 0 (fun _ => ⟨[], []⟩) =
      .ok { msgs := ["ERREUR: no data found for this parameter combination",
                     "use --list to see available values"], plots := [] } :=
  no_data_stops ⟨[], []⟩ "root" (fun _ => .error "boom") (fun _ => ⟨[], []⟩)
    ⟨[("data.csv", [])]⟩ "data.csv" [] 0 72 0 (fun _ => ⟨[], []⟩) rfl rfl rfl

theorem map_ne_self_of_mem {f : Row → Row} {l : List Row} {r : Row}
    (hr : r ∈ l) (hne : f r ≠ r) : l.map f ≠ l := by
  induction l with
  | nil => cases hr
  | cons a as ih =>
    intro h
    rw [List.map_cons] at h
    rcases List.mem_cons.mp hr with rfl | hr'
    · exact hne (List.cons_eq_cons.mp h).1
    · exact ih hr' (List.cons_eq_cons.mp h).2

/-- C6 counterexample: a one-row frame without an `Efficiency` column is
changed by `plot_energy_efficiency`: the caller's DataFrame is mutated. -/
theorem plot_energy_efficiency_frame_changes :
    plot_energy_efficiency_frame [sampleRow] ≠ [sampleRow] := by decide

/-- C6 (amended): `plot_density_impact_mobility0` leaves the caller's
frame unchanged (it works on a copy), but `plot_energy_efficiency`
mutates the caller's DataFrame — it writes the `Efficiency` column in
place — whenever some row does not already carry that value. -/
theorem plot_frames_mutation (df : List Row)
    (h : ∃ r ∈ df, r.Efficiency ≠ some (r.PDR_Percent / r.AvgEnergy_mJ)) :
    plot_energy_efficiency_frame df ≠ df ∧
    plot_density_impact_mobility0_frame df = df := by
  refine ⟨?_, rfl⟩
  rcases h with ⟨r, hr, hne⟩
  exact map_ne_self_of_mem hr fun hfr => hne (congrArg Row.Efficiency hfr).symm

/-- C6 witness: the mutation and the non-mutation at a concrete frame. -/
theorem plot_frames_mutation_witness :
    plot_energy_efficiency_frame [sampleRow] ≠ [sampleRow] ∧
    plot_density_impact_mobility0_frame [sampleRow] = [sampleRow] :=
  plot_frames_mutation [sampleRow] ⟨sampleRow, by decide, by decide⟩

end AdrPlots
